import Mathlib

/-!
Verification of the CrowdSense frame-processing and temporal-aggregation
pipeline (src/app.py, src/core/threads.py) against its design document.
The Python source is shallowly embedded: pure computations become Lean
functions over `Nat`/`Int`/`Rat`, stateful handlers become explicit
state-passing functions, and a Python exception is modelled as an
`Option PyErr` component of the result.
-/

namespace CrowdSense

/-- Python runtime errors that the embedded code can raise. -/
inductive PyErr where
  | nameError (missing : String)
  deriving DecidableEq

/-- Module-level names bound in `src/app.py`: its imports (lines 1-22,
including the star import of `config.py`, which defines only the constants
listed here and `available_models`) and the single top-level class
`CrowdSenseApp` (line 25).  Transcribed from the source; there are no other
module-level bindings. -/
def appModuleNames : List String :=
  ["sys", "os", "cv2", "torch", "np", "urllib", "time", "deque",
   "QApplication", "QMainWindow", "QWidget", "QVBoxLayout", "QHBoxLayout",
   "QLabel", "QComboBox", "QPushButton", "QFrame", "QSizePolicy",
   "QFileDialog", "QProgressBar", "QDialog", "QSplitter", "QScrollArea",
   "QGridLayout", "QMessageBox",
   "Qt", "QTimer", "pyqtSlot", "QSize", "QThread", "pyqtSignal", "QRect",
   "QPixmap", "QImage", "QFont", "QDragEnterEvent", "QDropEvent", "QPainter",
   "pg",
   "DARK_BG_COLOR", "PANEL_BG_COLOR", "WIDGET_BG_COLOR", "DROPDOWN_BG_COLOR",
   "BORDER_COLOR", "TEXT_COLOR", "MUTED_TEXT_COLOR", "ACCENT_COLOR",
   "LIGHTER_ACCENT_COLOR", "DARKER_ACCENT_COLOR", "GRID_COLOR",
   "DEFAULT_FONT", "HEADER_FONT_STYLE", "SUBHEADER_FONT_STYLE",
   "VALUE_FONT_STYLE", "LARGE_VALUE_FONT_STYLE", "BUTTON_STYLE",
   "EXPORT_BUTTON_STYLE", "available_models",
   "ModelDownloadThread", "VideoFrameThread", "YoloDetectionThread",
   "ToggleSwitch", "ModernBoxedSlider", "DragDropVideoLabel",
   "CrowdSenseApp"]

/-- The names bound in CPython's builtins module (callables, constants and
exception types), the final scope searched after module globals. -/
def pythonBuiltinNames : List String :=
  ["abs", "aiter", "all", "anext", "any", "ascii", "bin", "bool",
   "breakpoint", "bytearray", "bytes", "callable", "chr", "classmethod",
   "compile", "complex", "copyright", "credits", "delattr", "dict", "dir",
   "divmod", "enumerate", "eval", "exec", "exit", "filter", "float",
   "format", "frozenset", "getattr", "globals", "hasattr", "hash", "help",
   "hex", "id", "input", "int", "isinstance", "issubclass", "iter", "len",
   "license", "list", "locals", "map", "max", "memoryview", "min", "next",
   "object", "oct", "open", "ord", "pow", "print", "property", "quit",
   "range", "repr", "reversed", "round", "set", "setattr", "slice",
   "sorted", "staticmethod", "str", "sum", "super", "tuple", "type",
   "vars", "zip",
   "True", "False", "None", "NotImplemented", "Ellipsis",
   "ArithmeticError", "AssertionError", "AttributeError", "BaseException",
   "BaseExceptionGroup", "BlockingIOError", "BrokenPipeError",
   "BufferError", "BytesWarning", "ChildProcessError",
   "ConnectionAbortedError", "ConnectionError", "ConnectionRefusedError",
   "ConnectionResetError", "DeprecationWarning", "EOFError",
   "EncodingWarning", "EnvironmentError", "Exception", "ExceptionGroup",
   "FileExistsError", "FileNotFoundError", "FloatingPointError",
   "FutureWarning", "GeneratorExit", "IOError", "ImportError",
   "ImportWarning", "IndentationError", "IndexError", "InterruptedError",
   "IsADirectoryError", "KeyError", "KeyboardInterrupt", "LookupError",
   "MemoryError", "ModuleNotFoundError", "NameError", "NotADirectoryError",
   "NotImplementedError", "OSError", "OverflowError",
   "PendingDeprecationWarning", "PermissionError", "ProcessLookupError",
   "RecursionError", "ReferenceError", "ResourceWarning", "RuntimeError",
   "RuntimeWarning", "StopAsyncIteration", "StopIteration", "SyntaxError",
   "SyntaxWarning", "SystemError", "SystemExit", "TabError", "TimeoutError",
   "TypeError", "UnboundLocalError", "UnicodeDecodeError",
   "UnicodeEncodeError", "UnicodeError", "UnicodeTranslateError",
   "UnicodeWarning", "UserWarning", "ValueError", "Warning",
   "ZeroDivisionError"]

/-- A bare name used inside a method body of `CrowdSenseApp` resolves
through module globals and then builtins (the class body is not a scope
for name lookup in Python). -/
def globalNameBound (n : String) : Bool :=
  appModuleNames.contains n || pythonBuiltinNames.contains n

/-- Left-pad the decimal rendering of `n` to two digits, as Python's
format spec `02d` does for non-negative values. -/
def pad2 (n : Nat) : String :=
  if n < 10 then "0" ++ toString n else toString n

/-- Left-pad the decimal rendering of `n` to three digits, as Python's
format spec `03d` does for non-negative values. -/
def pad3 (n : Nat) : String :=
  if n < 10 then "00" ++ toString n
  else if n < 100 then "0" ++ toString n
  else toString n

/-- Body of `CrowdSenseApp.format_time_for_filename` (src/app.py:1067-1076).
The Python `def` takes the millisecond value in place of `self`, so as
written it is only callable with the time as sole argument. -/
def format_time_for_filename (time_ms : Nat) : String :=
  let total_seconds := time_ms / 1000
  let hours := total_seconds / 3600
  let minutes := (total_seconds % 3600) / 60
  let seconds := total_seconds % 60
  let milliseconds := time_ms % 1000
  pad2 hours ++ "h" ++ pad2 minutes ++ "m" ++ pad2 seconds ++ "s" ++
    pad3 milliseconds ++ "ms"

/-- One entry of `self.threshold_history` (src/app.py:1113-1117). -/
structure AlertRecord where
  timestamp : String
  count : Nat
  threshold : Nat
  deriving DecidableEq

/-- The fields of `CrowdSenseApp` that drive the threshold-alert engine
(initialised at src/app.py:89-123). -/
structure AppState where
  crowd_detection_enabled : Bool
  crowd_size_threshold : Nat
  smoothed_people_count : Nat
  video_time_ms : Nat
  threshold_alert_active : Bool
  threshold_history : List AlertRecord
  deriving DecidableEq

/-- `CrowdSenseApp.update_crowd_alert_status` (src/app.py:1078-1142).
Styling calls are presentation-only and omitted.  On the `alert_active`
path the code evaluates the bare name `format_time_for_filename`
(line 1112) before building and appending the alert record (lines
1113-1118); the name is looked up in module globals and builtins, and if
unbound the call raises `NameError`, leaving the earlier field mutation
(line 1083) in place. -/
def update_crowd_alert_status (st : AppState) (alert_active : Bool)
    (count : Nat) : AppState × Option PyErr :=
  if st.threshold_alert_active = alert_active then (st, none)
  else
    let st1 := { st with threshold_alert_active := alert_active }
    if alert_active then
      if globalNameBound "format_time_for_filename" then
        let current_time_str := format_time_for_filename st1.video_time_ms
        ({ st1 with threshold_history := st1.threshold_history ++
            [⟨current_time_str, count, st1.crowd_size_threshold⟩] }, none)
      else
        (st1, some (PyErr.nameError "format_time_for_filename"))
    else
      (st1, none)

/-- `CrowdSenseApp.check_threshold_crossing` (src/app.py:2303-2311). -/
def check_threshold_crossing (st : AppState) : AppState × Option PyErr :=
  let should_alert_be_active : Bool :=
    decide (st.smoothed_people_count > st.crowd_size_threshold)
  if should_alert_be_active ≠ st.threshold_alert_active then
    update_crowd_alert_status st should_alert_be_active
      st.smoothed_people_count
  else
    (st, none)

/-- The alert-relevant effect of one smoothed count reaching
`display_detection_results` (src/app.py:2250-2265): record the new
smoothed count, then run the threshold check when crowd detection is
enabled. -/
def alertStep (st : AppState) (c : Nat) : AppState × Option PyErr :=
  let st1 := { st with smoothed_people_count := c }
  if st1.crowd_detection_enabled then check_threshold_crossing st1
  else (st1, none)

/-- Process a sequence of smoothed counts through the alert engine,
stopping at the first uncaught exception (which propagates out of the
Qt slot and aborts further processing). -/
def runSmoothedCounts (st : AppState) : List Nat → AppState × Option PyErr
  | [] => (st, none)
  | c :: rest =>
    match alertStep st c with
    | (st1, none) => runSmoothedCounts st1 rest
    | (st1, some e) => (st1, some e)

/-- `CrowdSenseApp.on_crowd_size_threshold_changed` (src/app.py:1030-1037):
store the new threshold, then call `update_crowd_alert_status(False)`;
the remaining body only redraws the graph. -/
def on_crowd_size_threshold_changed (st : AppState) (value : Nat) :
    AppState × Option PyErr :=
  let st1 := { st with crowd_size_threshold := value }
  update_crowd_alert_status st1 false 0

/-- `CrowdSenseApp.on_crowd_detection_toggled` (src/app.py:1005-1027):
store the flag; when disabling, call `update_crowd_alert_status(False)`
and force `threshold_alert_active := False` (line 1016); when enabling,
only the graph is touched. -/
def on_crowd_detection_toggled (st : AppState) (enabled : Bool) :
    AppState × Option PyErr :=
  let st1 := { st with crowd_detection_enabled := enabled }
  if enabled = false then
    let r := update_crowd_alert_status st1 false 0
    ({ r.1 with threshold_alert_active := false }, r.2)
  else
    (st1, none)

theorem format_time_name_unbound :
    globalNameBound "format_time_for_filename" = false := by decide

theorem update_history_const (st : AppState) (b : Bool) (c : Nat) :
    (update_crowd_alert_status st b c).1.threshold_history =
      st.threshold_history := by
  unfold update_crowd_alert_status
  rcases h : st.threshold_alert_active with _ | _ <;>
    rcases b with _ | _ <;>
      simp [h, format_time_name_unbound]

theorem check_history_const (st : AppState) :
    (check_threshold_crossing st).1.threshold_history =
      st.threshold_history := by
  unfold check_threshold_crossing
  dsimp only
  split
  · exact update_history_const ..
  · rfl

theorem alertStep_history_const (st : AppState) (c : Nat) :
    (alertStep st c).1.threshold_history = st.threshold_history := by
  unfold alertStep
  dsimp only
  split
  · exact check_history_const ..
  · rfl

theorem runSmoothedCounts_history_const (counts : List Nat) :
    ∀ st : AppState,
      (runSmoothedCounts st counts).1.threshold_history =
        st.threshold_history := by
  induction counts with
  | nil => intro st; rfl
  | cons c rest ih =>
    intro st
    unfold runSmoothedCounts
    rcases h : alertStep st c with ⟨st1, e⟩
    rcases e with _ | e
    · have h1 : st1.threshold_history = st.threshold_history := by
        have := alertStep_history_const st c
        rw [h] at this
        exact this
      simpa [h1] using ih st1
    · have h1 : st1.threshold_history = st.threshold_history := by
        have := alertStep_history_const st c
        rw [h] at this
        exact this
      simpa using h1

/-- C1: with crowd detection enabled and threshold 10, the smoothed-count
sequence [5, 12, 15, 8, 20] does not produce two alert-log entries: the
first Normal-to-Alert transition (at count 12) raises `NameError` on the
bare-name call to `format_time_for_filename` before the record is built,
so `threshold_history` stays empty (the count 5 is processed without
incident first). -/
theorem threshold_alert_logging_name_error :
    runSmoothedCounts ⟨true, 10, 0, 0, false, []⟩ [5, 12, 15, 8, 20] =
      (⟨true, 10, 12, 0, true, []⟩,
        some (PyErr.nameError "format_time_for_filename")) ∧
    (runSmoothedCounts ⟨true, 10, 0, 0, false, []⟩
        [5, 12, 15, 8, 20]).1.threshold_history = [] ∧
    runSmoothedCounts ⟨true, 10, 0, 0, false, []⟩ [5] =
      (⟨true, 10, 5, 0, false, []⟩, none) := by
  decide

/-- C2: every Normal-to-Alert transition through
`update_crowd_alert_status` raises `NameError` for the unbound bare name
`format_time_for_filename` after flipping `threshold_alert_active` but
before appending to `threshold_history`; consequently no run of the alert
engine over any smoothed-count sequence ever extends `threshold_history`. -/
theorem normal_to_alert_raises_name_error (st : AppState) (c : Nat)
    (h : st.threshold_alert_active = false) :
    update_crowd_alert_status st true c =
      ({ st with threshold_alert_active := true },
        some (PyErr.nameError "format_time_for_filename")) ∧
    ∀ (counts : List Nat) (st2 : AppState),
      (runSmoothedCounts st2 counts).1.threshold_history =
        st2.threshold_history := by
  constructor
  · unfold update_crowd_alert_status
    simp [h, format_time_name_unbound]
  · intro counts st2
    exact runSmoothedCounts_history_const counts st2

/-- Witness for C2 at a concrete Normal state and count 12. -/
theorem normal_to_alert_raises_name_error_witness :
    update_crowd_alert_status ⟨true, 10, 12, 0, false, []⟩ true 12 =
      (⟨true, 10, 12, 0, true, []⟩,
        some (PyErr.nameError "format_time_for_filename")) :=
  (normal_to_alert_raises_name_error ⟨true, 10, 12, 0, false, []⟩ 12 rfl).1

/-- C7 counterexample: with crowd detection enabled, current smoothed
count 20 and alert state Normal, lowering the threshold to 10 leaves the
alert state Normal — the handler does not re-evaluate against the most
recent smoothed count, refuting the claim that the state becomes Alert
without waiting for the next frame. -/
theorem threshold_change_no_reeval_counterexample :
    (on_crowd_size_threshold_changed ⟨true, 30, 20, 0, false, []⟩
        10).1.crowd_detection_enabled = true ∧
    (on_crowd_size_threshold_changed ⟨true, 30, 20, 0, false, []⟩
        10).1.crowd_size_threshold = 10 ∧
    (on_crowd_size_threshold_changed ⟨true, 30, 20, 0, false, []⟩
        10).1.smoothed_people_count = 20 ∧
    ¬ (on_crowd_size_threshold_changed ⟨true, 30, 20, 0, false, []⟩
        10).1.threshold_alert_active = true := by
  decide

/-- C7 amended: a crowd-size-threshold change forces the alert state to
Normal without re-evaluating against the most recent smoothed count and
without appending any AlertRecord; disabling crowd detection likewise
forces Normal without logging; enabling it changes nothing but the flag
(re-evaluation happens only on the next processed frame or on a
smoothing-window change). -/
theorem threshold_enabled_change_forces_normal (st : AppState)
    (value : Nat) :
    (on_crowd_size_threshold_changed st value).1.threshold_alert_active =
      false ∧
    (on_crowd_size_threshold_changed st value).1.threshold_history =
      st.threshold_history ∧
    (on_crowd_size_threshold_changed st value).2 = none ∧
    (on_crowd_detection_toggled st false).1.threshold_alert_active =
      false ∧
    (on_crowd_detection_toggled st false).1.threshold_history =
      st.threshold_history ∧
    (on_crowd_detection_toggled st false).2 = none ∧
    (on_crowd_detection_toggled st true).1 =
      { st with crowd_detection_enabled := true } ∧
    (on_crowd_detection_toggled st true).2 = none := by
  unfold on_crowd_size_threshold_changed on_crowd_detection_toggled
    update_crowd_alert_status
  rcases h : st.threshold_alert_active with _ | _ <;> simp [h]

/-- Floor of a rational as an integer, via Euclidean division of the
numerator by the (positive) denominator. -/
def ratFloor (q : ℚ) : Int :=
  Int.ediv q.num q.den

/-- Python's builtin `round` on an exact rational value: round half to
even (also the behaviour of `round` applied to the `numpy.float64`
produced by `np.mean`). -/
def pyRound (q : ℚ) : Int :=
  let f := ratFloor q
  let r := q - (f : ℚ)
  if r < 1 / 2 then f
  else if 1 / 2 < r then f + 1
  else if f % 2 = 0 then f else f + 1

/-- `np.mean` of a list of raw counts, as an exact rational. -/
def listMeanQ (xs : List Nat) : ℚ :=
  (xs.sum : ℚ) / (xs.length : ℚ)

/-- Appending to a `collections.deque` with `maxlen`: the new element
goes on the right and the oldest elements are evicted from the left once
the length would exceed `maxlen`. -/
def dequeAppend (maxlen : Nat) (xs : List Nat) (x : Nat) : List Nat :=
  (xs ++ [x]).drop (xs.length + 1 - maxlen)

/-- The last `n` elements of a list (all of it when it is shorter). -/
def lastN (n : Nat) (xs : List Nat) : List Nat :=
  xs.drop (xs.length - n)

/-- The smoothing state of `CrowdSenseApp`: the bounded raw-count window
`people_count_history` and the derived `smoothed_people_count`
(src/app.py:89-90). -/
structure SmootherState where
  window : List Nat
  smoothed : Int
  deriving DecidableEq

/-- Initial smoothing state (src/app.py:89-90). -/
def smootherInit : SmootherState :=
  ⟨[], 0⟩

/-- The smoothing step of `display_detection_results`
(src/app.py:2241-2253): append the raw count to the bounded history and
recompute the rounded mean (the `else` branch at line 2248 is only
reachable with a zero-capacity deque). -/
def pushSmoothed (w : Nat) (st : SmootherState) (people_count : Nat) :
    SmootherState :=
  let window := dequeAppend w st.window people_count
  if window.length > 0 then
    { window := window, smoothed := pyRound (listMeanQ window) }
  else
    { window := window, smoothed := (people_count : Int) }

/-- `CrowdSenseApp.on_smoothing_window_changed` (src/app.py:1040-1054):
re-append the Python slice `current_history[-value:]` into a fresh deque
of capacity `value` and recompute the rounded mean, defaulting to 0 on an
empty window.  (Python's `[-value:]` with `value = 0` is the whole list,
but the zero-capacity deque then retains nothing.) -/
def on_smoothing_window_changed (st : SmootherState) (value : Nat) :
    SmootherState :=
  let current_history := st.window
  let sliced := if value = 0 then current_history
    else current_history.drop (current_history.length - value)
  let window := List.foldl (dequeAppend value) [] sliced
  if window.length > 0 then
    { window := window, smoothed := pyRound (listMeanQ window) }
  else
    { window := window, smoothed := 0 }

theorem dequeAppend_eq_lastN (m : Nat) (xs : List Nat) (x : Nat) :
    dequeAppend m xs x = lastN m (xs ++ [x]) := by
  simp [dequeAppend, lastN]

theorem dequeAppend_length (m : Nat) (xs : List Nat) (x : Nat) :
    (dequeAppend m xs x).length = min (xs.length + 1) m := by
  simp [dequeAppend]
  omega

theorem lastN_lastN_append (m : Nat) (ys zs : List Nat) :
    lastN m (lastN m ys ++ zs) = lastN m (ys ++ zs) := by
  unfold lastN
  simp only [List.length_append, List.length_drop]
  rw [List.drop_append_eq_append_drop, List.drop_append_eq_append_drop,
    List.drop_drop, List.length_drop]
  congr 1
  · congr 1
    omega
  · congr 1
    omega

theorem lastN_min (n : Nat) (xs : List Nat) :
    lastN (min n xs.length) xs = lastN n xs := by
  unfold lastN
  congr 1
  omega

theorem foldl_dequeAppend_eq_lastN (m : Nat) (xs : List Nat) :
    ∀ acc : List Nat, acc.length ≤ m →
      List.foldl (dequeAppend m) acc xs = lastN m (acc ++ xs) := by
  induction xs with
  | nil =>
    intro acc h
    simp [lastN, Nat.sub_eq_zero_of_le h]
  | cons x rest ih =>
    intro acc h
    have hlen : (dequeAppend m acc x).length ≤ m := by
      rw [dequeAppend_length]
      omega
    calc List.foldl (dequeAppend m) acc (x :: rest)
        = List.foldl (dequeAppend m) (dequeAppend m acc x) rest := rfl
      _ = lastN m (dequeAppend m acc x ++ rest) := ih _ hlen
      _ = lastN m (lastN m (acc ++ [x]) ++ rest) := by
            rw [dequeAppend_eq_lastN]
      _ = lastN m ((acc ++ [x]) ++ rest) := lastN_lastN_append ..
      _ = lastN m (acc ++ x :: rest) := by
            rw [List.append_assoc]
            rfl

theorem foldl_pushSmoothed_window (w : Nat) (xs : List Nat) :
    ∀ st : SmootherState,
      (List.foldl (pushSmoothed w) st xs).window =
        List.foldl (dequeAppend w) st.window xs := by
  induction xs with
  | nil => intro st; rfl
  | cons x rest ih =>
    intro st
    have hw : (pushSmoothed w st x).window = dequeAppend w st.window x := by
      unfold pushSmoothed
      dsimp only
      split <;> rfl
    calc (List.foldl (pushSmoothed w) st (x :: rest)).window
        = (List.foldl (pushSmoothed w) (pushSmoothed w st x) rest).window :=
          rfl
      _ = List.foldl (dequeAppend w) (pushSmoothed w st x).window rest :=
          ih _
      _ = List.foldl (dequeAppend w) (dequeAppend w st.window x) rest := by
          rw [hw]
      _ = List.foldl (dequeAppend w) st.window (x :: rest) :=
          (List.foldl_cons ..).symm

/-- C3: after every push, the window holds exactly the last
`min w (number of pushes)` raw counts and the smoothed count is the
banker's-rounded mean of that window. -/
theorem smoother_push_window_mean (pushes : List Nat) (c : Nat) (w : Nat)
    (hw : 0 < w) :
    (List.foldl (pushSmoothed w) smootherInit (pushes ++ [c])).window =
      lastN (min w (pushes.length + 1)) (pushes ++ [c]) ∧
    (List.foldl (pushSmoothed w) smootherInit (pushes ++ [c])).smoothed =
      pyRound (listMeanQ
        (List.foldl (pushSmoothed w) smootherInit (pushes ++ [c])).window) := by
  have hwin :
      (List.foldl (pushSmoothed w) smootherInit (pushes ++ [c])).window =
        lastN w (pushes ++ [c]) := by
    rw [foldl_pushSmoothed_window]
    have := foldl_dequeAppend_eq_lastN w (pushes ++ [c]) [] (by simp)
    simpa [smootherInit] using this
  constructor
  · rw [hwin]
    have hmin : min w (pushes.length + 1) =
        min w (pushes ++ [c]).length := by simp
    rw [hmin, Nat.min_comm, ← lastN_min]
    rw [Nat.min_comm]
  · have hstep : ∀ st : SmootherState,
        0 < (dequeAppend w st.window c).length →
        pushSmoothed w st c =
          ⟨dequeAppend w st.window c,
            pyRound (listMeanQ (dequeAppend w st.window c))⟩ := by
      intro st h
      unfold pushSmoothed
      dsimp only
      rw [if_pos h]
    rw [List.foldl_append, List.foldl_cons, List.foldl_nil,
      hstep _ (by rw [dequeAppend_length]; omega)]

/-- Witness for C3 at window capacity 3: pushes [2, 4, 9] yield
smoothed 5, and a further push of 100 yields window [4, 9, 100] and
smoothed 38. -/
theorem smoother_push_window_mean_witness :
    ((List.foldl (pushSmoothed 3) smootherInit ([2, 4] ++ [9])).window =
        lastN (min 3 3) ([2, 4] ++ [9]) ∧
      (List.foldl (pushSmoothed 3) smootherInit ([2, 4] ++ [9])).smoothed =
        pyRound (listMeanQ
          (List.foldl (pushSmoothed 3) smootherInit ([2, 4] ++ [9])).window)) ∧
    List.foldl (pushSmoothed 3) smootherInit [2, 4, 9] = ⟨[2, 4, 9], 5⟩ ∧
    List.foldl (pushSmoothed 3) smootherInit [2, 4, 9, 100] =
      ⟨[4, 9, 100], 38⟩ := by
  refine ⟨smoother_push_window_mean [2, 4] 9 3 (by decide), ?_, ?_⟩ <;>
    with_unfolding_all decide

theorem lastN_idem (m : Nat) (ys : List Nat) :
    lastN m (lastN m ys) = lastN m ys := by
  have := lastN_lastN_append m ys []
  simpa using this

/-- C10: resizing the smoothing window truncates the history to the most
recent `value` samples (all of them if the history is shorter) and
immediately recomputes the smoothed count as the rounded mean of the
retained samples, or 0 if the resulting window is empty. -/
theorem smoothing_resize_truncates_recomputes (st : SmootherState)
    (value : Nat) :
    (on_smoothing_window_changed st value).window =
      lastN (min value st.window.length) st.window ∧
    (on_smoothing_window_changed st value).smoothed =
      (if (on_smoothing_window_changed st value).window = [] then 0
        else pyRound (listMeanQ (on_smoothing_window_changed st value).window)) := by
  have hA : List.foldl (dequeAppend value) []
      (if value = 0 then st.window
        else st.window.drop (st.window.length - value)) =
      lastN (min value st.window.length) st.window := by
    rw [foldl_dequeAppend_eq_lastN value _ [] (by simp), List.nil_append]
    by_cases hv : value = 0
    · subst hv
      rw [if_pos rfl]
      unfold lastN
      congr 1
      omega
    · rw [if_neg hv]
      show lastN value (lastN value st.window) = _
      rw [lastN_idem]
      exact (lastN_min value st.window).symm
  unfold on_smoothing_window_changed
  dsimp only
  rw [hA]
  by_cases hlen : (lastN (min value st.window.length) st.window).length > 0
  · rw [if_pos hlen]
    refine ⟨rfl, ?_⟩
    dsimp only
    rw [if_neg (List.ne_nil_of_length_pos hlen)]
  · rw [if_neg hlen]
    refine ⟨rfl, ?_⟩
    dsimp only
    have hnil : lastN (min value st.window.length) st.window = [] :=
      List.eq_nil_of_length_eq_zero (by omega)
    rw [if_pos hnil]

/-- The peak/off-peak fields of `CrowdSenseApp` (src/app.py:120-123);
`offpeak_count = none` models the `float('inf')` sentinel. -/
structure PeakState where
  peak_count : Nat
  peak_time_ms : Nat
  offpeak_count : Option Nat
  offpeak_time_ms : Nat
  deriving DecidableEq

/-- Initial peak-tracking state (src/app.py:120-123). -/
def peakInit : PeakState :=
  ⟨0, 0, none, 0⟩

/-- The Python comparison `smoothed < self.offpeak_count` against the
possibly-infinite off-peak sentinel. -/
def belowOffpeak (c : Nat) : Option Nat → Bool
  | none => true
  | some v => c < v

/-- The peak/off-peak tracking step of `display_detection_results`
(src/app.py:2271-2281): the two strict-comparison updates run
independently on every observation. -/
def observe (st : PeakState) (c t : Nat) : PeakState :=
  let st1 := if st.peak_count < c then
    { st with peak_count := c, peak_time_ms := t } else st
  if 0 < c ∧ belowOffpeak c st1.offpeak_count = true then
    { st1 with offpeak_count := some c, offpeak_time_ms := t } else st1

/-- Fold a list of (smoothed count, video time) observations through the
tracker. -/
def runObserve (st : PeakState) (obs : List (Nat × Nat)) : PeakState :=
  List.foldl (fun s p => observe s p.1 p.2) st obs

/-- Maximum smoothed count in a sequence of observations (0 if empty). -/
def maxCounts : List (Nat × Nat) → Nat
  | [] => 0
  | p :: rest => max p.1 (maxCounts rest)

/-- Minimum strictly-positive smoothed count in a sequence of
observations; `none` when no positive count occurs. -/
def posMin : List (Nat × Nat) → Option Nat
  | [] => none
  | p :: rest =>
    let r := posMin rest
    if p.1 = 0 then r
    else match r with
      | none => some p.1
      | some v => some (min p.1 v)

/-- Time of the first observation whose count equals `m`. -/
def firstTimeOf : List (Nat × Nat) → Nat → Option Nat
  | [], _ => none
  | p :: rest, m => if p.1 = m then some p.2 else firstTimeOf rest m

/-- Combine an off-peak sentinel with a candidate minimum (`none` is the
infinity element). -/
def optMin : Option Nat → Option Nat → Option Nat
  | none, b => b
  | some a, none => some a
  | some a, some b => some (min a b)

theorem observe_peak_fields (st : PeakState) (c t : Nat) :
    ((observe st c t).peak_count =
        if st.peak_count < c then c else st.peak_count) ∧
    ((observe st c t).peak_time_ms =
        if st.peak_count < c then t else st.peak_time_ms) := by
  constructor <;>
    (unfold observe
     dsimp only
     by_cases h : st.peak_count < c
     · simp only [if_pos h]
       split <;> rfl
     · simp only [if_neg h]
       split <;> rfl)

theorem observe_offpeak_field (st : PeakState) (c t : Nat) :
    (observe st c t).offpeak_count =
      (if 0 < c ∧ belowOffpeak c st.offpeak_count = true then some c
        else st.offpeak_count) := by
  unfold observe
  dsimp only
  by_cases h : st.peak_count < c
  · simp only [if_pos h]
    split <;> rfl
  · simp only [if_neg h]
    split <;> rfl

theorem runObserve_peak (obs : List (Nat × Nat)) :
    ∀ st : PeakState,
      (runObserve st obs).peak_count = max st.peak_count (maxCounts obs) ∧
      (maxCounts obs ≤ st.peak_count →
        (runObserve st obs).peak_time_ms = st.peak_time_ms) ∧
      (st.peak_count < maxCounts obs →
        some (runObserve st obs).peak_time_ms =
          firstTimeOf obs (maxCounts obs)) := by
  induction obs with
  | nil =>
    intro st
    refine ⟨by simp [runObserve, maxCounts], fun _ => rfl, fun h => ?_⟩
    simp [maxCounts] at h
  | cons p rest ih =>
    intro st
    obtain ⟨c, t⟩ := p
    have hrun : runObserve st ((c, t) :: rest) =
        runObserve (observe st c t) rest := rfl
    have hpk := observe_peak_fields st c t
    obtain ⟨ihA, ihB, ihC⟩ := ih (observe st c t)
    have hM : maxCounts ((c, t) :: rest) = max c (maxCounts rest) := rfl
    refine ⟨?_, ?_, ?_⟩
    · rw [hrun, ihA, hpk.1, hM]
      split <;> omega
    · intro hle
      rw [hM] at hle
      have hnotlt : ¬ st.peak_count < c := by omega
      have hpc : (observe st c t).peak_count = st.peak_count := by
        rw [hpk.1, if_neg hnotlt]
      rw [hrun, ihB (by rw [hpc]; omega), hpk.2, if_neg hnotlt]
    · intro hlt
      rw [hM] at hlt
      rw [hrun, hM]
      show _ = (if c = max c (maxCounts rest) then some t
        else firstTimeOf rest (max c (maxCounts rest)))
      by_cases hc : c = max c (maxCounts rest)
      · rw [if_pos hc]
        have hup : st.peak_count < c := by omega
        have hpc : (observe st c t).peak_count = c := by
          rw [hpk.1, if_pos hup]
        rw [ihB (by rw [hpc]; omega), hpk.2, if_pos hup]
      · rw [if_neg hc]
        have hcm : max c (maxCounts rest) = maxCounts rest := by omega
        rw [hcm]
        apply ihC
        rw [hpk.1]
        split <;> omega

theorem runObserve_offpeak (obs : List (Nat × Nat)) :
    ∀ st : PeakState,
      (runObserve st obs).offpeak_count =
        optMin st.offpeak_count (posMin obs) := by
  induction obs with
  | nil =>
    intro st
    show st.offpeak_count = optMin st.offpeak_count none
    cases st.offpeak_count <;> rfl
  | cons p rest ih =>
    intro st
    obtain ⟨c, t⟩ := p
    have hrun : runObserve st ((c, t) :: rest) =
        runObserve (observe st c t) rest := rfl
    rw [hrun, ih, observe_offpeak_field]
    by_cases hc : c = 0
    · subst hc
      rw [if_neg (by simp)]
      have hpm : posMin ((0, t) :: rest) = posMin rest := by simp [posMin]
      rw [hpm]
    · have hcpos : 0 < c := Nat.pos_of_ne_zero hc
      have hpm : posMin ((c, t) :: rest) =
          (match posMin rest with
            | none => some c
            | some v => some (min c v)) := by
        simp [posMin, hc]
      rw [hpm]
      rcases hoff : st.offpeak_count with _ | w
      · rw [if_pos ⟨hcpos, rfl⟩]
        cases posMin rest <;> simp [optMin]
      · by_cases hb : c < w
        · rw [if_pos ⟨hcpos, by simp [belowOffpeak, hb]⟩]
          cases posMin rest with
          | none => simp [optMin]; omega
          | some v => simp [optMin]; omega
        · rw [if_neg (by simp [belowOffpeak]; omega)]
          cases posMin rest with
          | none => simp [optMin]; omega
          | some v => simp [optMin]; omega

/-- C4 counterexample: observing the single pair (count 0 at time 5)
leaves `peak_time_ms` at its initial value 0, although the maximum count
ever observed (0) is first attained at time 5 — the parenthetical
"peak_time_ms is the time of the first observation attaining the maximum"
fails when the maximum is 0, because the comparison is strict against the
initial `peak_count = 0`. -/
theorem peak_time_zero_max_counterexample :
    maxCounts [(0, 5)] = 0 ∧
    firstTimeOf [(0, 5)] (maxCounts [(0, 5)]) = some 5 ∧
    (runObserve peakInit [(0, 5)]).peak_count = maxCounts [(0, 5)] ∧
    ¬ some (runObserve peakInit [(0, 5)]).peak_time_ms =
        firstTimeOf [(0, 5)] (maxCounts [(0, 5)]) := by
  decide

/-- C4 amended: after any sequence of observations, `peak_count` is the
maximum smoothed count ever observed and `offpeak_count` is the minimum
strictly-positive smoothed count ever observed (`none`, i.e. infinity, if
no positive count was observed); whenever the maximum is positive,
`peak_time_ms` is the time of the first observation attaining it (when no
positive count occurs it keeps its initial value 0); zero counts never
update the off-peak fields. -/
theorem peak_offpeak_tracking_amended (obs : List (Nat × Nat)) :
    (runObserve peakInit obs).peak_count = maxCounts obs ∧
    (runObserve peakInit obs).offpeak_count = posMin obs ∧
    (0 < maxCounts obs →
      some (runObserve peakInit obs).peak_time_ms =
        firstTimeOf obs (maxCounts obs)) ∧
    (∀ (st : PeakState) (t : Nat),
      (observe st 0 t).offpeak_count = st.offpeak_count ∧
      (observe st 0 t).offpeak_time_ms = st.offpeak_time_ms) := by
  obtain ⟨hA, _, hC⟩ := runObserve_peak obs peakInit
  refine ⟨by simpa [peakInit] using hA, ?_, fun h => hC h, ?_⟩
  · have := runObserve_offpeak obs peakInit
    simpa [peakInit, optMin] using this
  · intro st t
    unfold observe
    simp

/-- Witness for C4 (amended) on the observation sequence
[(5,100), (3,200), (8,300), (3,400)]: peak 8 first attained at time 300,
off-peak 3, and a zero count leaves the off-peak fields of the initial
state unchanged. -/
theorem peak_offpeak_tracking_amended_witness :
    (runObserve peakInit [(5, 100), (3, 200), (8, 300), (3, 400)]).peak_count
        = maxCounts [(5, 100), (3, 200), (8, 300), (3, 400)] ∧
    (runObserve peakInit
        [(5, 100), (3, 200), (8, 300), (3, 400)]).offpeak_count =
      posMin [(5, 100), (3, 200), (8, 300), (3, 400)] ∧
    some (runObserve peakInit
        [(5, 100), (3, 200), (8, 300), (3, 400)]).peak_time_ms =
      firstTimeOf [(5, 100), (3, 200), (8, 300), (3, 400)]
        (maxCounts [(5, 100), (3, 200), (8, 300), (3, 400)]) ∧
    (observe peakInit 0 7).offpeak_count = peakInit.offpeak_count := by
  have h := peak_offpeak_tracking_amended
    [(5, 100), (3, 200), (8, 300), (3, 400)]
  exact ⟨h.1, h.2.1, h.2.2.1 (by decide), (h.2.2.2 peakInit 7).1⟩

/-- State of `YoloDetectionThread` (src/core/threads.py:94-102), with
frames as opaque identifiers: `frame_queue` and `processing` are the
Python fields, `model` abstracts `self.model is not None`, `inflight` is
the frame popped at line 147 while a detection pass runs, and `processed`
records the frames for which `detection_ready` was emitted (line 179). -/
structure WorkerState where
  frame_queue : List Nat
  processing : Bool
  model : Bool
  inflight : Option Nat
  processed : List Nat
  deriving DecidableEq

/-- `YoloDetectionThread.add_frame` (src/core/threads.py:109-111):
`if frame is not None and not self.processing: self.frame_queue =
[frame.copy()]`. -/
def add_frame (st : WorkerState) (frame : Option Nat) : WorkerState :=
  match frame with
  | none => st
  | some f =>
    if st.processing = false then { st with frame_queue := [f] } else st

/-- Interleaving events: a `submit` from the producer thread, and the
start (lines 145-147: guard, `processing = True`, `pop(0)`) and end
(lines 179-184: emit, `processing = False`) of one detection pass of the
worker's `run` loop. -/
inductive WEvent where
  | submit (frame : Option Nat)
  | beginWork
  | endWork
  deriving DecidableEq

/-- One interleaving step of the worker and its producer. -/
def wstep (st : WorkerState) (e : WEvent) : WorkerState :=
  match e with
  | .submit f => add_frame st f
  | .beginWork =>
    if st.processing = false ∧ st.frame_queue.length > 0 ∧
        st.model = true then
      { st with processing := true,
                frame_queue := st.frame_queue.tail,
                inflight := st.frame_queue.head? }
    else st
  | .endWork =>
    if st.processing = true then
      { st with processing := false,
                processed := st.processed ++ st.inflight.toList,
                inflight := none }
    else st

/-- Run a sequence of interleaving events from a state. -/
def runW (st : WorkerState) (es : List WEvent) : WorkerState :=
  List.foldl wstep st es

/-- Worker state after construction (src/core/threads.py:96-100) and a
successful model load. -/
def workerInit : WorkerState :=
  ⟨[], false, true, none, []⟩

/-- Reachability invariant of the worker: the pending queue never holds
more than one frame, and it is empty while a detection pass is in
progress. -/
def WInv (st : WorkerState) : Prop :=
  st.frame_queue.length ≤ 1 ∧
    (st.processing = true → st.frame_queue = [])

theorem wstep_winv (st : WorkerState) (e : WEvent) (h : WInv st) :
    WInv (wstep st e) := by
  obtain ⟨h1, h2⟩ := h
  cases e with
  | submit f =>
    cases f with
    | none => exact ⟨h1, h2⟩
    | some v =>
      show WInv (if st.processing = false then
        { st with frame_queue := [v] } else st)
      split <;> rename_i hp
      · exact ⟨by simp, by simp [hp]⟩
      · exact ⟨h1, h2⟩
  | beginWork =>
    show WInv (if st.processing = false ∧ st.frame_queue.length > 0 ∧
        st.model = true then _ else st)
    split <;> rename_i hp
    · refine ⟨by simp [List.length_tail]; omega, fun _ => ?_⟩
      have : st.frame_queue.tail.length = 0 := by
        simp [List.length_tail]
        omega
      simpa using List.eq_nil_of_length_eq_zero this
    · exact ⟨h1, h2⟩
  | endWork =>
    show WInv (if st.processing = true then _ else st)
    split <;> rename_i hp
    · exact ⟨h1, by simp⟩
    · exact ⟨h1, h2⟩

theorem runW_winv (es : List WEvent) :
    ∀ st : WorkerState, WInv st → WInv (runW st es) := by
  induction es with
  | nil => intro st h; exact h
  | cons e rest ih =>
    intro st h
    exact ih (wstep st e) (wstep_winv st e h)

theorem workerInit_winv : WInv workerInit :=
  ⟨by decide, by decide⟩

theorem runW_append (st : WorkerState) (l1 l2 : List WEvent) :
    runW st (l1 ++ l2) = runW (runW st l1) l2 :=
  List.foldl_append ..

theorem idleCycle (st : WorkerState) (hq : st.frame_queue = [])
    (hp : st.processing = false) :
    runW st [WEvent.beginWork, WEvent.endWork] = st := by
  show wstep (wstep st .beginWork) .endWork = st
  have hb : wstep st .beginWork = st := by
    show (if st.processing = false ∧ st.frame_queue.length > 0 ∧
        st.model = true then _ else st) = st
    rw [if_neg (by simp [hq])]
  rw [hb]
  show (if st.processing = true then _ else st) = st
  rw [if_neg (by simp [hp])]

theorem idleCycles (st : WorkerState) (hq : st.frame_queue = [])
    (hp : st.processing = false) :
    ∀ k : Nat,
      runW st (List.flatten (List.replicate k
        [WEvent.beginWork, WEvent.endWork])) = st := by
  intro k
  induction k with
  | zero => rfl
  | succ m ih =>
    rw [List.replicate_succ, List.flatten_cons, runW_append,
      idleCycle st hq hp, ih]

/-- C8: the pending queue of the detection worker never holds more than
one frame; on any reachable state with a pending frame, submitting a new
frame replaces it; and submitting frames 1, 2, 3 in rapid succession
(before any detection pass starts) followed by any positive number of
worker passes processes exactly one frame, namely frame 3, leaving the
queue empty. -/
theorem detection_queue_latest_wins :
    (∀ es : List WEvent, (runW workerInit es).frame_queue.length ≤ 1) ∧
    (∀ (es : List WEvent) (f : Nat),
      (runW workerInit es).frame_queue ≠ [] →
      (wstep (runW workerInit es)
        (WEvent.submit (some f))).frame_queue = [f]) ∧
    (∀ n : Nat, 1 ≤ n →
      runW workerInit
        ([WEvent.submit (some 1), WEvent.submit (some 2),
          WEvent.submit (some 3)] ++
         List.flatten (List.replicate n [WEvent.beginWork, WEvent.endWork]))
        = ⟨[], false, true, none, [3]⟩) := by
  refine ⟨?_, ?_, ?_⟩
  · intro es
    exact (runW_winv es workerInit workerInit_winv).1
  · intro es f hne
    have hp : (runW workerInit es).processing = false := by
      rcases hproc : (runW workerInit es).processing with _ | _
      · rfl
      · exact absurd ((runW_winv es workerInit workerInit_winv).2 hproc)
          hne
    show (add_frame (runW workerInit es) (some f)).frame_queue = [f]
    unfold add_frame
    dsimp only
    rw [if_pos hp]
  · intro n hn
    obtain ⟨k, rfl⟩ : ∃ k, n = k + 1 := ⟨n - 1, by omega⟩
    have hsplit : List.replicate (k + 1)
        [WEvent.beginWork, WEvent.endWork] =
        [WEvent.beginWork, WEvent.endWork] ::
          List.replicate k [WEvent.beginWork, WEvent.endWork] := by
      rw [List.replicate_succ]
    rw [hsplit, List.flatten_cons, runW_append, runW_append]
    have hfirst : runW (runW workerInit
        [WEvent.submit (some 1), WEvent.submit (some 2),
          WEvent.submit (some 3)])
        [WEvent.beginWork, WEvent.endWork] =
        ⟨[], false, true, none, [3]⟩ := by decide
    rw [hfirst]
    exact idleCycles _ rfl rfl k

/-- Witness for C8: after the single submission of frame 1 the queue is
[1]; submitting frame 2 on that reachable state replaces it with [2];
and with n = 1 worker pass the rapid sequence 1, 2, 3 yields exactly the
processed list [3]. -/
theorem detection_queue_latest_wins_witness :
    (wstep (runW workerInit [WEvent.submit (some 1)])
      (WEvent.submit (some 2))).frame_queue = [2] ∧
    runW workerInit
        ([WEvent.submit (some 1), WEvent.submit (some 2),
          WEvent.submit (some 3)] ++
         List.flatten (List.replicate 1 [WEvent.beginWork, WEvent.endWork]))
      = ⟨[], false, true, none, [3]⟩ :=
  ⟨detection_queue_latest_wins.2.1 [WEvent.submit (some 1)] 2 (by decide),
    detection_queue_latest_wins.2.2 1 (by decide)⟩

/-- C9: a frame submitted while the worker's `processing` flag is set is
silently discarded — `add_frame` leaves the state unchanged, so the
submission alters nothing about any later behaviour; on any reachable
state the queue is already empty during a pass and stays empty when the
pass completes, and the discarded frame is never processed because the
run with the extra submission equals the run without it. -/
theorem add_frame_during_processing_discarded :
    (∀ (st : WorkerState) (f : Option Nat), st.processing = true →
      wstep st (WEvent.submit f) = st) ∧
    (∀ es : List WEvent, (runW workerInit es).processing = true →
      (runW workerInit es).frame_queue = [] ∧
      (wstep (runW workerInit es) WEvent.endWork).frame_queue = []) ∧
    (∀ (es rest : List WEvent) (f : Option Nat),
      (runW workerInit es).processing = true →
      runW workerInit (es ++ WEvent.submit f :: rest) =
        runW workerInit (es ++ rest)) := by
  have hdiscard : ∀ (st : WorkerState) (f : Option Nat),
      st.processing = true → wstep st (WEvent.submit f) = st := by
    intro st f hp
    show add_frame st f = st
    unfold add_frame
    cases f with
    | none => rfl
    | some v =>
      dsimp only
      rw [if_neg (by simp [hp])]
  refine ⟨hdiscard, ?_, ?_⟩
  · intro es hp
    have hq : (runW workerInit es).frame_queue = [] :=
      (runW_winv es workerInit workerInit_winv).2 hp
    refine ⟨hq, ?_⟩
    show (wstep _ .endWork).frame_queue = []
    unfold wstep
    rw [if_pos hp]
    exact hq
  · intro es rest f hp
    rw [runW_append, runW_append]
    show runW (wstep (runW workerInit es) (WEvent.submit f)) rest = _
    rw [hdiscard _ _ hp]

/-- Witness for C9: after submitting frame 1 and starting its detection
pass, submitting frame 2 is a no-op (the whole run equals the run
without it), the queue stays empty when the pass ends, and only frame 1
is ever processed. -/
theorem add_frame_during_processing_discarded_witness :
    wstep ⟨[], true, true, some 1, []⟩ (WEvent.submit (some 2)) =
      ⟨[], true, true, some 1, []⟩ ∧
    runW workerInit ([WEvent.submit (some 1), WEvent.beginWork] ++
        WEvent.submit (some 2) :: [WEvent.endWork]) =
      runW workerInit ([WEvent.submit (some 1), WEvent.beginWork] ++
        [WEvent.endWork]) ∧
    (runW workerInit [WEvent.submit (some 1), WEvent.beginWork,
        WEvent.submit (some 2), WEvent.endWork]).processed = [1] := by
  refine ⟨add_frame_during_processing_discarded.1 _ (some 2) rfl,
    add_frame_during_processing_discarded.2.2
      [WEvent.submit (some 1), WEvent.beginWork] [WEvent.endWork]
      (some 2) (by decide), by decide⟩

/-- A low-resolution float accumulator (`np.float32` grid), modelled with
exact rationals. -/
abbrev Grid : Type :=
  List (List ℚ)

/-- `np.zeros((h, w))`. -/
def zerosGrid (h w : Nat) : Grid :=
  List.replicate h (List.replicate w (0 : ℚ))

/-- `array.shape` of a rectangular grid. -/
def gridDims (g : Grid) : Nat × Nat :=
  (g.length, (g.headD []).length)

/-- Read one cell (0 outside bounds). -/
def getCell (g : Grid) (y x : Nat) : ℚ :=
  (g.getD y []).getD x 0

/-- Write one cell (no-op outside bounds, as the embedded loops stay in
bounds). -/
def setCell (g : Grid) (y x : Nat) (v : ℚ) : Grid :=
  g.set y ((g.getD y []).set x v)

/-- Elementwise `grid * c`. -/
def scaleGrid (c : ℚ) (g : Grid) : Grid :=
  g.map (fun row => row.map (fun v => v * c))

/-- Elementwise `a + b` of same-shape grids. -/
def addGrid (a b : Grid) : Grid :=
  List.zipWith (List.zipWith (fun u v => u + v)) a b

/-- Elementwise `grid / c`. -/
def divGrid (g : Grid) (c : ℚ) : Grid :=
  g.map (fun row => row.map (fun v => v / c))

/-- `np.maximum(grid, 0.0)`. -/
def max0Grid (g : Grid) : Grid :=
  g.map (fun row => row.map (fun v => max v 0))

/-- `array.fill(v)`. -/
def fillGrid (g : Grid) (v : ℚ) : Grid :=
  g.map (fun row => row.map (fun _ => v))

/-- Maximum of a list of rationals (0 for the empty list, which the
engine never queries). -/
def listMax : List ℚ → ℚ
  | [] => 0
  | x :: xs => xs.foldl max x

/-- `np.max` over all cells of a grid. -/
def gridMax (g : Grid) : ℚ :=
  listMax g.flatten

/-- Python's `int()` truncation toward zero on an exact rational. -/
def pyInt (q : ℚ) : Int :=
  if 0 ≤ q then ratFloor q else -ratFloor (-q)

/-- The low-resolution dimension `int(dim * scale_factor)`
(src/app.py:1428). -/
structure HeatmapParams where
  heatmap_decay : ℚ
  heatmap_intensity : ℚ
  heatmap_scale_factor : ℚ
  heatmap_neighbor_radius : Nat

/-- Default heatmap parameters (src/app.py:102-107). -/
def heatmapDefaults : HeatmapParams :=
  ⟨99 / 100, 3 / 5, 1 / 5, 4⟩

/-- `int(dim * scale_factor)` for one frame dimension. -/
def lowDim (p : HeatmapParams) (d : Nat) : Int :=
  pyInt ((d : ℚ) * p.heatmap_scale_factor)

/-- External numerical collaborators used by `update_heatmap`: `np.sqrt`,
`cv2.GaussianBlur` with a square kernel of the given size, and
`cv2.resize` to a (width, height) target.  The engine is verified for an
arbitrary implementation of these. -/
structure NumpyCvOps where
  sqrt : ℚ → ℚ
  gaussianBlur : Nat → Grid → Grid
  resize : Nat × Nat → Grid → Grid

/-- The heatmap fields of `CrowdSenseApp` (src/app.py:99-101). -/
structure HeatmapState where
  heatmap_accumulator : Option Grid
  aggregate_heatmap_accumulator : Option Grid
  aggregate_frame_count : Nat

/-- Initial heatmap state (src/app.py:99-101). -/
def heatmapInit : HeatmapState :=
  ⟨none, none, 0⟩

/-- Splat one detection box into the transient low-resolution grid
(src/app.py:1459-1493): project the bottom-center foot point, clamp it to
bounds, set its cell to 1.0, and raise each in-radius neighbour to the
linear-falloff intensity `max(0, 1 - dist/radius) * 0.7`, taking the max
against the existing value. -/
def splatBox (ops : NumpyCvOps) (scale : ℚ) (radius : Nat)
    (low_h low_w : Nat) (g : Grid) (box : Int × Int × Int × Int) : Grid :=
  let x1 := box.1
  let x2 := box.2.2.1
  let y2 := box.2.2.2
  let foot_x0 := pyInt (((x1 + x2 : Int) : ℚ) / 2 * scale)
  let foot_y0 := pyInt ((y2 : ℚ) * scale)
  let foot_x := (max 0 (min ((low_w : Int) - 1) foot_x0)).toNat
  let foot_y := (max 0 (min ((low_h : Int) - 1) foot_y0)).toNat
  let g1 := setCell g foot_y foot_x 1
  let y_min := foot_y - radius
  let y_max := min (low_h - 1) (foot_y + radius)
  let x_min := foot_x - radius
  let x_max := min (low_w - 1) (foot_x + radius)
  let cells := (List.range' y_min (y_max + 1 - y_min)).flatMap
    (fun y => (List.range' x_min (x_max + 1 - x_min)).map (fun x => (y, x)))
  cells.foldl (fun acc yx =>
    if yx.1 = foot_y ∧ yx.2 = foot_x then acc
    else
      let dist_sq : Int := ((yx.2 : Int) - (foot_x : Int)) ^ 2 +
        ((yx.1 : Int) - (foot_y : Int)) ^ 2
      if dist_sq ≤ (radius : Int) ^ 2 then
        let dist := ops.sqrt ((dist_sq : ℚ))
        let intensity := max 0 (1 - dist / (radius : ℚ)) * (7 / 10)
        setCell acc yx.1 yx.2 (max (getCell acc yx.1 yx.2) intensity)
      else acc) g1

/-- Build the transient `current_heatmap` and the `detections_in_frame`
flag (src/app.py:1454-1493): start from zeros, splat every box, setting
the flag per box. -/
def buildCurrent (ops : NumpyCvOps) (p : HeatmapParams)
    (low_h low_w : Nat) (boxes : List (Int × Int × Int × Int)) :
    Grid × Bool :=
  boxes.foldl
    (fun acc box =>
      (splatBox ops p.heatmap_scale_factor p.heatmap_neighbor_radius
        low_h low_w acc.1 box, true))
    (zerosGrid low_h low_w, false)

/-- The body of `update_heatmap` after (re)allocation
(src/app.py:1451-1531): decay the live accumulator, build the current
grid, blur (kernels 7, 17, 31) and self-normalize it when detections are
present, add `current * intensity` into the live accumulator, add the
normalized current into the aggregate (incrementing its frame counter)
when detections are present, then rescale the live accumulator by its
maximum when that exceeds 1.0 and clamp it to non-negative; the returned
density is the live accumulator resized back to frame resolution. -/
def updateHeatmapCore (ops : NumpyCvOps) (p : HeatmapParams)
    (low_h low_w : Nat) (live agg : Grid) (cnt : Nat) (h w : Nat)
    (boxes : List (Int × Int × Int × Int)) : HeatmapState × Option Grid :=
  let live1 := scaleGrid p.heatmap_decay live
  let bc := buildCurrent ops p low_h low_w boxes
  let detections := bc.2
  let current :=
    if detections then
      let blurred := ops.gaussianBlur 31 (ops.gaussianBlur 17
        (ops.gaussianBlur 7 bc.1))
      let max_val := gridMax blurred
      if max_val > 0 then divGrid blurred max_val else fillGrid blurred 0
    else bc.1
  let live2 := addGrid live1 (scaleGrid p.heatmap_intensity current)
  let agg2 := if detections then addGrid agg current else agg
  let cnt2 := if detections then cnt + 1 else cnt
  let max_accum := gridMax live2
  let live3 := if max_accum > 1 then divGrid live2 max_accum else live2
  let live4 := max0Grid live3
  (⟨some live4, some agg2, cnt2⟩, some (ops.resize (w, h) live4))

/-- `CrowdSenseApp.update_heatmap` (src/app.py:1418-1531): reject a
missing frame or non-positive low-resolution dimensions, reallocate the
accumulators (and reset the aggregate frame counter) when absent or when
the resolution changed, then run the accumulation body. -/
def update_heatmap (ops : NumpyCvOps) (p : HeatmapParams)
    (st : HeatmapState) (frame : Option (Nat × Nat))
    (boxes : List (Int × Int × Int × Int)) : HeatmapState × Option Grid :=
  match frame with
  | none => (st, none)
  | some hw =>
    let h := hw.1
    let w := hw.2
    let lowH := lowDim p h
    let lowW := lowDim p w
    if lowH ≤ 0 ∨ lowW ≤ 0 then (st, none)
    else
      let low_h := lowH.toNat
      let low_w := lowW.toNat
      let resolution_changed :=
        match st.heatmap_accumulator with
        | some g => decide (gridDims g ≠ (low_h, low_w))
        | none => false
      let live := match st.heatmap_accumulator with
        | none => zerosGrid low_h low_w
        | some g => if resolution_changed then zerosGrid low_h low_w else g
      let aggCnt : Grid × Nat :=
        match st.aggregate_heatmap_accumulator with
        | none => (zerosGrid low_h low_w, 0)
        | some g =>
          if resolution_changed then (zerosGrid low_h low_w, 0)
          else (g, st.aggregate_frame_count)
      updateHeatmapCore ops p low_h low_w live aggCnt.1 aggCnt.2 h w boxes

/-- Fold a sequence of `(frame dims, boxes)` update calls through the
heatmap engine. -/
def runHeatmap (ops : NumpyCvOps) (p : HeatmapParams) (st : HeatmapState) :
    List (Option (Nat × Nat) × List (Int × Int × Int × Int)) → HeatmapState
  | [] => st
  | c :: rest =>
    runHeatmap ops p (update_heatmap ops p st c.1 c.2).1 rest

/-- All cells of a grid lie in [0, 1]. -/
def cellsBounded (g : Grid) : Prop :=
  ∀ row ∈ g, ∀ v ∈ row, 0 ≤ v ∧ v ≤ 1

/-- Identity implementations of the external numerical collaborators,
used to instantiate witnesses. -/
def opsIdentity : NumpyCvOps :=
  ⟨fun q => q, fun _ g => g, fun _ g => g⟩

theorem foldl_max_init_le (ys : List ℚ) : ∀ a : ℚ, a ≤ ys.foldl max a := by
  induction ys with
  | nil => intro a; exact le_refl a
  | cons b ys ih =>
    intro a
    exact le_trans (le_max_left a b) (ih (max a b))

theorem mem_le_foldl_max (ys : List ℚ) :
    ∀ a x : ℚ, x ∈ ys → x ≤ ys.foldl max a := by
  induction ys with
  | nil =>
    intro a x hx
    cases hx
  | cons b ys ih =>
    intro a x hx
    rcases List.mem_cons.1 hx with rfl | hx
    · exact le_trans (le_max_right a x) (foldl_max_init_le ys (max a x))
    · exact ih (max a b) x hx

theorem mem_le_listMax (l : List ℚ) (x : ℚ) (hx : x ∈ l) :
    x ≤ listMax l := by
  cases l with
  | nil => cases hx
  | cons y ys =>
    rcases List.mem_cons.1 hx with rfl | h
    · exact foldl_max_init_le ys x
    · exact mem_le_foldl_max ys y x h

theorem le_gridMax (g : Grid) (row : List ℚ) (v : ℚ)
    (hrow : row ∈ g) (hv : v ∈ row) : v ≤ gridMax g :=
  mem_le_listMax g.flatten v (List.mem_flatten.2 ⟨row, hrow, hv⟩)

/-- The clamp at src/app.py:1520-1526 leaves every cell in [0, 1],
whatever the accumulator held before it. -/
theorem clamp_bounded (g : Grid) :
    cellsBounded (max0Grid
      (if gridMax g > 1 then divGrid g (gridMax g) else g)) := by
  by_cases hm : gridMax g > 1
  · rw [if_pos hm]
    intro row hrow v hv
    rcases List.mem_map.1 hrow with ⟨row1, hrow1, rfl⟩
    rcases List.mem_map.1 hv with ⟨u, hu, rfl⟩
    rcases List.mem_map.1 hrow1 with ⟨row0, hrow0, rfl⟩
    rcases List.mem_map.1 hu with ⟨u0, hu0, rfl⟩
    have hle : u0 ≤ gridMax g := le_gridMax g row0 u0 hrow0 hu0
    have hmpos : (0 : ℚ) < gridMax g := by linarith
    refine ⟨le_max_right _ _, max_le ?_ zero_le_one⟩
    rw [div_le_one hmpos]
    exact hle
  · rw [if_neg hm]
    intro row hrow v hv
    rcases List.mem_map.1 hrow with ⟨row0, hrow0, rfl⟩
    rcases List.mem_map.1 hv with ⟨u, hu, rfl⟩
    have hle : u ≤ gridMax g := le_gridMax g row0 u hrow0 hu
    exact ⟨le_max_right _ _, max_le (by linarith) zero_le_one⟩

theorem update_live_shape (ops : NumpyCvOps) (p : HeatmapParams)
    (st : HeatmapState) (frame : Option (Nat × Nat))
    (boxes : List (Int × Int × Int × Int)) :
    (update_heatmap ops p st frame boxes).1.heatmap_accumulator =
      st.heatmap_accumulator ∨
    ∃ g' : Grid,
      (update_heatmap ops p st frame boxes).1.heatmap_accumulator =
        some (max0Grid
          (if gridMax g' > 1 then divGrid g' (gridMax g') else g')) := by
  unfold update_heatmap
  cases frame with
  | none => exact Or.inl rfl
  | some hw =>
    dsimp only
    split
    · exact Or.inl rfl
    · unfold updateHeatmapCore
      dsimp only
      exact Or.inr ⟨_, rfl⟩

/-- C5: for every implementation of the external numerical operations,
every parameter setting, and every sequence of update calls from the
initial state, every cell of the live heatmap accumulator lies in
[0, 1] after each call. -/
theorem heatmap_live_cells_bounded (ops : NumpyCvOps) (p : HeatmapParams)
    (calls : List (Option (Nat × Nat) × List (Int × Int × Int × Int))) :
    ∀ g : Grid,
      (runHeatmap ops p heatmapInit calls).heatmap_accumulator = some g →
      cellsBounded g := by
  suffices h : ∀ st : HeatmapState,
      (∀ g, st.heatmap_accumulator = some g → cellsBounded g) →
      ∀ g, (runHeatmap ops p st calls).heatmap_accumulator = some g →
        cellsBounded g by
    exact h heatmapInit (fun g hg => nomatch hg)
  induction calls with
  | nil => intro st hst; exact hst
  | cons c rest ih =>
    intro st hst
    apply ih
    intro g hg
    rcases update_live_shape ops p st c.1 c.2 with he | ⟨g', he⟩
    · rw [he] at hg
      exact hst g hg
    · rw [he] at hg
      injection hg with hg
      exact hg ▸ clamp_bounded g'

/-- Witness for C5: one update call with frame 10x10, no boxes, and the
default parameters yields the 2x2 zero accumulator, every cell of which
is in [0, 1]. -/
theorem heatmap_live_cells_bounded_witness :
    (runHeatmap opsIdentity heatmapDefaults heatmapInit
        [(some (10, 10), [])]).heatmap_accumulator =
      some (zerosGrid 2 2) ∧
    cellsBounded (zerosGrid 2 2) := by
  have hrun : (runHeatmap opsIdentity heatmapDefaults heatmapInit
      [(some (10, 10), [])]).heatmap_accumulator =
      some (zerosGrid 2 2) := by
    with_unfolding_all decide
  exact ⟨hrun, heatmap_live_cells_bounded opsIdentity heatmapDefaults
    [(some (10, 10), [])] (zerosGrid 2 2) hrun⟩

theorem foldl_splat_flag (ops : NumpyCvOps) (scale : ℚ) (radius : Nat)
    (low_h low_w : Nat) (boxes : List (Int × Int × Int × Int)) :
    ∀ acc : Grid × Bool,
      (List.foldl (fun a box =>
        (splatBox ops scale radius low_h low_w a.1 box, true)) acc
          boxes).2 = (acc.2 || !boxes.isEmpty) := by
  induction boxes with
  | nil => intro acc; simp
  | cons b bs ih =>
    intro acc
    rw [List.foldl_cons, ih]
    simp

theorem buildCurrent_flag (ops : NumpyCvOps) (p : HeatmapParams)
    (low_h low_w : Nat) (boxes : List (Int × Int × Int × Int)) :
    (buildCurrent ops p low_h low_w boxes).2 = !boxes.isEmpty := by
  unfold buildCurrent
  rw [foldl_splat_flag]
  simp

theorem core_aggregate_count (ops : NumpyCvOps) (p : HeatmapParams)
    (low_h low_w : Nat) (live agg : Grid) (cnt : Nat) (h w : Nat)
    (boxes : List (Int × Int × Int × Int)) :
    (updateHeatmapCore ops p low_h low_w live agg cnt h w
        boxes).1.aggregate_frame_count =
      (if boxes.isEmpty then cnt else cnt + 1) := by
  unfold updateHeatmapCore
  dsimp only
  rw [buildCurrent_flag]
  rcases hb : boxes.isEmpty with _ | _ <;> simp [hb]

/-- C6: when a call to `update_heatmap` sees a frame whose (positive)
low-resolution dimensions differ from the live accumulator's current
shape, the call behaves exactly as if both accumulators had been freshly
reallocated to all-zero grids of the new dimensions with the aggregate
frame counter reset to 0 before accumulating that frame — prior contents
are discarded, and after the call the counter counts only that frame
(1 when it contained detections, 0 otherwise). -/
theorem heatmap_resolution_change_resets (ops : NumpyCvOps)
    (p : HeatmapParams) (st : HeatmapState) (h w : Nat)
    (boxes : List (Int × Int × Int × Int)) (g : Grid)
    (hacc : st.heatmap_accumulator = some g)
    (hpos : 0 < lowDim p h ∧ 0 < lowDim p w)
    (hchanged : gridDims g ≠ ((lowDim p h).toNat, (lowDim p w).toNat)) :
    update_heatmap ops p st (some (h, w)) boxes =
      updateHeatmapCore ops p (lowDim p h).toNat (lowDim p w).toNat
        (zerosGrid (lowDim p h).toNat (lowDim p w).toNat)
        (zerosGrid (lowDim p h).toNat (lowDim p w).toNat) 0 h w boxes ∧
    (update_heatmap ops p st (some (h, w))
        boxes).1.aggregate_frame_count =
      (if boxes.isEmpty then 0 else 1) := by
  have hmain : update_heatmap ops p st (some (h, w)) boxes =
      updateHeatmapCore ops p (lowDim p h).toNat (lowDim p w).toNat
        (zerosGrid (lowDim p h).toNat (lowDim p w).toNat)
        (zerosGrid (lowDim p h).toNat (lowDim p w).toNat) 0 h w boxes := by
    unfold update_heatmap
    dsimp only
    rw [if_neg (by rcases hpos with ⟨h1, h2⟩; omega)]
    rw [hacc]
    dsimp only
    rw [if_pos (decide_eq_true hchanged)]
    rcases hagg : st.aggregate_heatmap_accumulator with _ | g2
    · rfl
    · dsimp only
      rw [if_pos (decide_eq_true hchanged)]
  refine ⟨hmain, ?_⟩
  rw [hmain, core_aggregate_count]

/-- Witness for C6: a state whose accumulators are 2x2 with counter 5,
updated with a 15x15 frame (low-resolution 3x3 under the default scale
factor 1/5) and no boxes, reduces to the freshly-zeroed 3x3 run with the
counter reset (and ends with counter 0 since the frame has no
detections). -/
theorem heatmap_resolution_change_resets_witness :
    update_heatmap opsIdentity heatmapDefaults
        ⟨some (zerosGrid 2 2), some (zerosGrid 2 2), 5⟩
        (some (15, 15)) [] =
      updateHeatmapCore opsIdentity heatmapDefaults
        (lowDim heatmapDefaults 15).toNat
        (lowDim heatmapDefaults 15).toNat
        (zerosGrid (lowDim heatmapDefaults 15).toNat
          (lowDim heatmapDefaults 15).toNat)
        (zerosGrid (lowDim heatmapDefaults 15).toNat
          (lowDim heatmapDefaults 15).toNat) 0 15 15 [] ∧
    (update_heatmap opsIdentity heatmapDefaults
        ⟨some (zerosGrid 2 2), some (zerosGrid 2 2), 5⟩
        (some (15, 15)) []).1.aggregate_frame_count =
      (if ([] : List (Int × Int × Int × Int)).isEmpty then 0 else 1) :=
  heatmap_resolution_change_resets opsIdentity heatmapDefaults
    ⟨some (zerosGrid 2 2), some (zerosGrid 2 2), 5⟩ 15 15 []
    (zerosGrid 2 2) rfl
    (by constructor <;> with_unfolding_all decide)
    (by with_unfolding_all decide)

end CrowdSense
